import Mathlib

/-!
Shallow embedding of the two request pipelines of the repository
(`src/api/controllers/commentController.ts` and
`src/api/controllers/imageController.ts`), together with proofs about them.

JavaScript values appearing in request bodies are modelled by `JsField`
(absent / string / other value with its truthiness); environment variables by
`Option String` with JS truthiness (`none` or the empty string is falsy);
the filesystem by an association list from paths to file contents; provider
and network behaviour by explicit outcome parameters.  Each Express handler
becomes a pure function returning its `next`/`res.json` outcome, the updated
`res.locals`, and a trace of the outbound calls and filesystem effects it
performed.
-/

namespace AIRepo

/-- A JavaScript value sitting in a request-body field: absent (`undefined`),
a string, or some non-string value carrying its JS truthiness. -/
inductive JsField where
  | absent
  | str (s : String)
  | nonString (truthyVal : Bool)
deriving DecidableEq, Repr

/-- JS truthiness of a `JsField` (`!x` in the source is `jsFalsy x`). -/
def jsFalsy : JsField → Bool
  | .absent => true
  | .str s => s == ""
  | .nonString t => !t

/-- Does `typeof x === 'string'` hold? -/
def isStr : JsField → Bool
  | .str _ => true
  | _ => false

/-- The string carried by a `JsField`, when it is a string. -/
def strOf : JsField → String
  | .str s => s
  | _ => ""

/-- JS truthiness of an optional string (environment variable or
`res.locals` entry): present and non-empty. -/
def truthy : Option String → Bool
  | some s => s != ""
  | none => false

/-- Embedding of `.replace(/\/$/, '')`: drop a single trailing slash. -/
def stripTrailingSlash (s : String) : String :=
  if s.endsWith "/" then s.dropRight 1 else s

/-- Embedding of JavaScript `Array.prototype.join(sep)`. -/
def joinSep (sep : String) : List String → String
  | [] => ""
  | x :: xs => xs.foldl (fun acc y => acc ++ sep ++ y) x

/-- Outcome a handler passes on: `next()` with no error, `next(new
CustomError(msg, status))`, or `next(err)` for a thrown non-custom error. -/
inductive StepResult where
  | ok
  | custom (status : Nat) (msg : String)
  | thrown (msg : String)
deriving DecidableEq, Repr

/-! ## Comment pipeline (`commentController.ts`) -/

/-- Embedding of the provider chat message object: `content` is `none` when
the field is `null` or missing. -/
structure ChatMsg where
  content : Option String
deriving DecidableEq, Repr

/-- One element of `completion.choices`.  `text` is an arbitrary JS field
(the source probes it with `typeof choice.text === 'string'`). -/
structure ChatChoice where
  message : Option ChatMsg
  text : JsField
deriving DecidableEq, Repr

/-- The parsed provider chat completion; `choices` is `none` when the payload
is nullish or has no `choices` array. -/
structure ChatCompletion where
  choices : Option (List ChatChoice)
deriving DecidableEq, Repr

/-- Outcome of the comment handler: a JSON body via `res.json`, or an error
handed to `next`. -/
inductive CommentOut where
  | respond (response : String) (raw : ChatCompletion)
  | fail (status : Nat) (msg : String)
  | thrown (msg : String)
deriving DecidableEq, Repr

/-- A run of the comment handler: its outcome and the URLs of the outbound
provider calls it made. -/
structure CommentRun where
  out : CommentOut
  calls : List String
deriving DecidableEq, Repr

/-- Reply extraction from the first choice, as in the source:
`choice?.message?.content ?? (typeof choice?.text === 'string' ? choice.text : '') ?? ''`. -/
def extractReply (c : ChatChoice) : String :=
  match c.message.bind (fun m => m.content) with
  | some s => s
  | none => match c.text with
            | .str s => s
            | _ => ""

/-- Embedding of `commentPost`.  `textF` is the request body `text` field,
`apiUrl` the `OPENAI_API_URL` environment variable, and `fetchOutcome` the
behaviour of the single `fetchData` call (`Except.error` models a thrown
transport error). -/
def commentPost (textF : JsField) (apiUrl : Option String)
    (fetchOutcome : Except String ChatCompletion) : CommentRun :=
  if jsFalsy textF || !(isStr textF) then
    ⟨.fail 400 "No text provided", []⟩
  else if !(truthy apiUrl) then
    ⟨.fail 500 "No API url found", []⟩
  else
    let url := stripTrailingSlash (apiUrl.getD "") ++ "/v1/chat/completions"
    match fetchOutcome with
    | .error e => ⟨.thrown e, [url]⟩
    | .ok completion =>
      match completion.choices with
      | some (c :: _) => ⟨.respond (extractReply c) completion, [url]⟩
      | some [] => ⟨.fail 500 "No completion choices returned", [url]⟩
      | none => ⟨.fail 500 "No completion choices returned", [url]⟩

/-! ## Image pipeline (`imageController.ts`) -/

/-- One element of the provider image response `data` array; each field is
`none` when nullish. -/
structure ImgItem where
  url : Option String
  b64_json : Option String
deriving DecidableEq, Repr

/-- The parsed provider image response; `data` is `none` when the payload is
nullish or has no `data` array. -/
structure ImgResp where
  data : Option (List ImgItem)
deriving DecidableEq, Repr

/-- The `res.locals` record threaded through the image pipeline stages. -/
structure Locals where
  url : Option String := none
  b64 : Option String := none
  file : Option String := none
  thumb : Option String := none
deriving DecidableEq, Repr

/-- An outbound image-generation call: either through the vendor SDK client
or a raw POST to the proxy endpoint. -/
inductive GenCall where
  | sdkGen (model prompt size : String)
  | proxyPost (url : String)
deriving DecidableEq, Repr

/-- Embedding of `makePrompt`: push the opener, the optional style and
splash-text clauses, and two fixed clauses, then `join(' ')`. -/
def makePrompt (topic : String) (splashText : String) (style : String) : String :=
  let promptParts : List String :=
    [ "YouTube thumbnail for a video about " ++ topic ++ "." ]
    ++ (if style != "" then [style ++ "."] else [])
    ++ (if splashText != ""
        then ["Include large bold splash text: \"" ++ splashText ++ "\"."]
        else [])
    ++ [ "High contrast, bold composition, clear central subject, readable text, vibrant colors."
       , "Composition suited for a 16:9 YouTube thumbnail." ]
  joinSep " " promptParts

/-- A run of the generation stage: the `next` outcome, the locals it set,
and the outbound calls made. -/
structure GenRun where
  result : StepResult
  locals : Locals
  calls : List GenCall
deriving DecidableEq, Repr

/-- Embedding of `generateImage`.  `topicF`, `splashText`, `style`, `size`
and `model` come from the request body (string fields already defaulted as in
the destructuring), `apiKey`/`apiUrl` are the environment variables, and
`sdkOutcome`/`proxyOutcome` give the behaviour of whichever provider call is
made (`Except.error` models a thrown transport/SDK error). -/
def generateImage (topicF : JsField) (splashText style size model : String)
    (apiKey apiUrl : Option String)
    (sdkOutcome proxyOutcome : Except String ImgResp) : GenRun :=
  if jsFalsy topicF || !(isStr topicF) then
    ⟨.custom 400 "topic (string) is required in request body", {}, []⟩
  else
    let prompt := makePrompt (strOf topicF) splashText style
    if truthy apiKey then
      let call := GenCall.sdkGen model prompt size
      match sdkOutcome with
      | .error e => ⟨.thrown e, {}, [call]⟩
      | .ok response =>
        match response.data with
        | some (item :: _) =>
          if truthy item.url then
            ⟨.ok, { url := item.url }, [call]⟩
          else if truthy item.b64_json then
            ⟨.ok, { b64 := item.b64_json }, [call]⟩
          else
            ⟨.custom 500 "Image not generated (no url or b64_json)", {}, [call]⟩
        | _ => ⟨.custom 500 "Image not generated (SDK returned no data)", {}, [call]⟩
    else if truthy apiUrl then
      let call := GenCall.proxyPost
        (stripTrailingSlash (apiUrl.getD "") ++ "/v1/images/generations")
      match proxyOutcome with
      | .error e => ⟨.thrown e, {}, [call]⟩
      | .ok response =>
        match response.data with
        | some (item :: _) =>
          if truthy item.url then
            ⟨.ok, { url := item.url }, [call]⟩
          else if truthy item.b64_json then
            ⟨.ok, { b64 := item.b64_json }, [call]⟩
          else
            ⟨.custom 500 "Image not generated (proxy returned no url or b64_json)", {}, [call]⟩
        | _ => ⟨.custom 500 "Image not generated (proxy returned no data)", {}, [call]⟩
    else
      ⟨.custom 500 "No OPENAI_API_KEY or OPENAI_API_URL configured", {}, []⟩

/-! ### Persistence stage (`saveImage`) -/

/-- Content of a file on disk: the empty file a fresh `createWriteStream`
produces, bytes decoded from a base64 string, or downloaded raw bytes. -/
inductive FileContent where
  | empty
  | fromB64 (s : String)
  | bytes (body : List Nat)
deriving DecidableEq, Repr

/-- The filesystem: an association list from paths to file contents. -/
abbrev FS := List (String × FileContent)

/-- Write (create or overwrite) a file. -/
def fsSet (fs : FS) (p : String) (c : FileContent) : FS :=
  (p, c) :: (fs.filter (fun e => e.fst != p))

/-- Remove a file (embedding of `fs.unlinkSync`). -/
def fsRemove (fs : FS) (p : String) : FS :=
  fs.filter (fun e => e.fst != p)

/-- Look up a file's content. -/
def fsGet (fs : FS) (p : String) : Option FileContent :=
  (fs.find? (fun e => e.fst == p)).map (fun e => e.snd)

/-- Is a character kept (not replaced by an underscore) by the sanitizing
`replace(/[^a-z0-9-_]/gi, '_')`: an ASCII letter of either case, an ASCII
digit, a dash, or an underscore. -/
def keepChar (c : Char) : Bool :=
  (97 ≤ c.toNat && c.toNat ≤ 122) || (65 ≤ c.toNat && c.toNat ≤ 90)
    || (48 ≤ c.toNat && c.toNat ≤ 57) || c.toNat == 45 || c.toNat == 95

/-- The per-character action of the sanitizing replace. -/
def sanitizeChar (c : Char) : Char :=
  if keepChar c then c else '_'

/-- Embedding of `topic.replace(/[^a-z0-9-_]/gi, '_').toLowerCase()`. -/
def sanitizeTopic (s : String) : String :=
  String.mk ((s.data.map sanitizeChar).map Char.toLower)

/-- Does a character belong to the class the sanitized token is claimed to
consist of: lowercase ASCII letters, ASCII digits, dash, underscore? -/
def goodChar (c : Char) : Bool :=
  (97 ≤ c.toNat && c.toNat ≤ 122) || (48 ≤ c.toNat && c.toNat ≤ 57)
    || c.toNat == 45 || c.toNat == 95

/-- The derived file name: `${baseName}_${timestamp}.png` where `baseName`
sanitizes `req.body?.topic || 'image'`. -/
def imageNameOf (topic : String) (timestamp : Nat) : String :=
  sanitizeTopic (if topic == "" then "image" else topic)
    ++ "_" ++ toString timestamp ++ ".png"

/-- The target path `path.join(uploadsDir, imageName)`. -/
def imagePathOf (topic : String) (timestamp : Nat) : String :=
  "uploads/" ++ imageNameOf topic timestamp

/-- Outcome of the `https.get` download: a response with its status code
(`none` when `statusCode` is undefined) and body, or an `error` event on the
request. -/
inductive DlOutcome where
  | resp (statusCode : Option Nat) (body : FileContent)
  | netErr
deriving DecidableEq, Repr

/-- The source's failure test on the download status:
`response.statusCode && response.statusCode >= 400`. -/
def statusFailing : Option Nat → Bool
  | some c => decide (c ≠ 0) && decide (400 ≤ c)
  | none => false

/-- Which persistence branch ran: direct base64 write, or URL download. -/
inductive SaveEffect where
  | wroteB64 (name : String)
  | downloaded (url name : String)
deriving DecidableEq, Repr

/-- A run of the persistence stage: the `next` outcome, the updated locals,
the updated filesystem, and which branch ran. -/
structure SaveRun where
  result : StepResult
  locals : Locals
  fs : FS
  effects : List SaveEffect
deriving DecidableEq, Repr

/-- Embedding of `saveImage`.  `topic` is the request body topic (the empty
string models an absent/empty topic, which the source replaces by
`'image'`), `timestamp` is `Date.now()`, `dl` the behaviour of the
`https.get` call when the download path runs, and `unlinkFails` whether the
best-effort `fs.unlinkSync` in the error handler itself throws. -/
def saveImage (topic : String) (locals : Locals) (timestamp : Nat)
    (dl : DlOutcome) (unlinkFails : Bool) (fs : FS) : SaveRun :=
  let imageName := imageNameOf topic timestamp
  let imagePath := imagePathOf topic timestamp
  if truthy locals.b64 then
    ⟨.ok, { locals with file := some imageName },
      fsSet fs imagePath (.fromB64 (locals.b64.getD "")), [.wroteB64 imageName]⟩
  else if !(truthy locals.url) then
    ⟨.custom 500 "No image URL or data to save", locals, fs, []⟩
  else
    let imageUrl := locals.url.getD ""
    let fs1 := fsSet fs imagePath .empty
    match dl with
    | .resp sc body =>
      if statusFailing sc then
        ⟨.thrown ("Failed to download image, status " ++ toString (sc.getD 0)),
          locals, fs1, [.downloaded imageUrl imageName]⟩
      else
        ⟨.ok, { locals with file := some imageName },
          fsSet fs1 imagePath body, [.downloaded imageUrl imageName]⟩
    | .netErr =>
      let fs2 := if unlinkFails then fs1 else fsRemove fs1 imagePath
      ⟨.thrown "download error", locals, fs2, [.downloaded imageUrl imageName]⟩

/-! ### Thumbnail stage (`makeThumbnail`) and response assembly -/

/-- Embedding of `makeThumbnail`.  `sharpAvailable` models the `if (!sharp)`
guard and `sharpOutcome` whether the resize/re-encode call throws.  Returns
the `next` outcome (always `ok`) and the updated locals. -/
def makeThumbnail (locals : Locals) (sharpAvailable : Bool)
    (sharpOutcome : Except String Unit) : StepResult × Locals :=
  if !(truthy locals.file) then
    (.ok, locals)
  else if !sharpAvailable then
    (.ok, locals)
  else
    match sharpOutcome with
    | .ok _ => (.ok, { locals with thumb := some ("thumb_" ++ locals.file.getD "") })
    | .error _ => (.ok, locals)

/-- The response body `respondWithImage` emits. -/
structure ImageReply where
  file : Option String
  thumb : Option String
  url : Option String
deriving DecidableEq, Repr

/-- Embedding of `respondWithImage`. -/
def respondWithImage (locals : Locals) : ImageReply :=
  ⟨locals.file, locals.thumb, locals.url⟩

/-! ## Helper lemmas -/

/-- Converting a valid codepoint to a character and back is the identity. -/
theorem char_toNat_ofNat (n : Nat) (h : n < 55296) : (Char.ofNat n).toNat = n := by
  have hv : n.isValidChar := Or.inl h
  rw [Char.ofNat, dif_pos hv]
  simp [Char.ofNatAux, Char.toNat, UInt32.toNat]

/-- Numeric description of `Char.toLower`. -/
theorem toNat_toLower (c : Char) :
    (Char.toLower c).toNat =
      if 65 ≤ c.toNat ∧ c.toNat ≤ 90 then c.toNat + 32 else c.toNat := by
  unfold Char.toLower
  split
  · next h =>
    rw [if_pos (by omega)]
    exact char_toNat_ofNat _ (by omega)
  · next h => rw [if_neg (by omega)]

/-- Every character the sanitizer emits, once lowercased, is a lowercase
ASCII letter, a digit, a dash, or an underscore. -/
theorem goodChar_toLower_sanitizeChar (c : Char) :
    goodChar (Char.toLower (sanitizeChar c)) = true := by
  unfold sanitizeChar
  by_cases hk : keepChar c = true
  · rw [if_pos hk]
    unfold keepChar at hk
    simp only [Bool.or_eq_true, Bool.and_eq_true, decide_eq_true_eq, beq_iff_eq] at hk
    simp only [goodChar, toNat_toLower, Bool.or_eq_true, Bool.and_eq_true,
      decide_eq_true_eq, beq_iff_eq]
    split <;> omega
  · rw [if_neg hk]
    decide

/-- All characters of a sanitized topic are lowercase alphanumerics, dashes,
or underscores. -/
theorem sanitizeTopic_chars (s : String) :
    ∀ c ∈ (sanitizeTopic s).data, goodChar c = true := by
  intro c hc
  simp only [sanitizeTopic, List.map_map] at hc
  rcases List.mem_map.mp hc with ⟨d, _, rfl⟩
  exact goodChar_toLower_sanitizeChar d

/-- Truthiness of the absent optional string. -/
theorem truthy_none : truthy none = false := rfl

/-- A truthy optional string is present. -/
theorem isSome_of_truthy (o : Option String) (h : truthy o = true) :
    o.isSome = true := by
  cases o <;> simp [truthy] at h ⊢

/-- Reading back a file just written returns the written content. -/
theorem fsGet_fsSet (fs : FS) (p : String) (c : FileContent) :
    fsGet (fsSet fs p c) p = some c := by
  simp [fsGet, fsSet]

/-- Reading a file just removed returns nothing. -/
theorem fsGet_fsRemove (fs : FS) (p : String) :
    fsGet (fsRemove fs p) p = none := by
  induction fs with
  | nil => rfl
  | cons e rest ih =>
    by_cases h : e.fst = p <;>
      simp [fsRemove, fsGet, List.filter_cons, List.find?_cons, h] at ih ⊢

/-! ## Claim theorems -/

/-- C7: for every topic, optional splash text, and optional style, the
generated prompt is the space-joined concatenation of the fixed opener
about the topic, a style clause exactly when a style was given, a
splash-text clause exactly when splash text was given, and the two fixed
composition/quality clauses, in that order. -/
theorem c7_prompt_structure (topic splashText style : String) :
    makePrompt topic splashText style =
      "YouTube thumbnail for a video about " ++ topic ++ "."
      ++ (if style = "" then "" else " " ++ (style ++ "."))
      ++ (if splashText = "" then ""
          else " " ++ ("Include large bold splash text: \"" ++ splashText ++ "\"."))
      ++ (" " ++ "High contrast, bold composition, clear central subject, readable text, vibrant colors.")
      ++ (" " ++ "Composition suited for a 16:9 YouTube thumbnail.") := by
  by_cases h1 : style = "" <;> by_cases h2 : splashText = "" <;>
    simp [makePrompt, joinSep, h1, h2, String.append_assoc]

/-- C8: for every non-empty topic, whenever the persistence stage records a
stored file, its name is the sanitized topic followed by an underscore, the
timestamp, and the extension `.png`; and the sanitized topic consists only
of lowercase alphanumerics, dashes, and underscores. -/
theorem c8_file_name (topic : String) (locals : Locals) (timestamp : Nat)
    (dl : DlOutcome) (unlinkFails : Bool) (fs : FS)
    (hT : topic ≠ "") (hF : locals.file = none) :
    (∀ n, (saveImage topic locals timestamp dl unlinkFails fs).locals.file = some n →
      n = sanitizeTopic topic ++ "_" ++ toString timestamp ++ ".png")
    ∧ (∀ c ∈ (sanitizeTopic topic).data, goodChar c = true) := by
  refine ⟨?_, sanitizeTopic_chars topic⟩
  intro n hn
  have hTb : (topic == "") = false := by
    simp [hT]
  unfold saveImage at hn
  simp only [imageNameOf, imagePathOf, hTb, if_neg] at hn
  by_cases hb : truthy locals.b64 = true
  · simp only [hb, if_pos] at hn
    simp only [Bool.false_eq_true, if_false] at hn
    exact (Option.some.injEq _ _ ▸ hn.symm).symm ▸ rfl
  · simp only [Bool.not_eq_true] at hb
    simp only [hb, Bool.false_eq_true, if_false] at hn
    by_cases hu : truthy locals.url = true
    · simp only [hu, Bool.not_true, Bool.false_eq_true, if_false] at hn
      cases dl with
      | resp sc body =>
        by_cases hs : statusFailing sc = true
        · simp only [hs, if_pos] at hn
          rw [hF] at hn
          exact absurd hn (by simp)
        · simp only [Bool.not_eq_true] at hs
          simp only [hs, Bool.false_eq_true, if_false] at hn
          exact (Option.some.injEq _ _).mp hn.symm ▸ rfl
      | netErr =>
        rw [hF] at hn
        exact absurd hn (by simp)
    · simp only [Bool.not_eq_true] at hu
      simp only [hu, Bool.not_false, if_pos] at hn
      rw [hF] at hn
      exact absurd hn (by simp)

/-- Witness for C8 at a concrete run. -/
theorem c8_file_name_witness :
    ("my_topic_7.png" : String) = sanitizeTopic "My Topic" ++ "_" ++ toString 7 ++ ".png" :=
  (c8_file_name "My Topic" { b64 := some "QUJD" } 7
    (DlOutcome.resp (some 200) (FileContent.bytes [])) false []
    (by decide) rfl).1 "my_topic_7.png" (by rfl)

/-- C9: the thumbnailing stage never fails the request: it always passes
control on without an error, skips silently when no file was produced, and
leaves the locals unchanged (no `thumb` set) when the resize/re-encode
throws. -/
theorem c9_thumbnail_never_fails (locals : Locals) (sharpAvailable : Bool)
    (sharpOutcome : Except String Unit) :
    ((makeThumbnail locals sharpAvailable sharpOutcome).fst = StepResult.ok)
    ∧ (truthy locals.file = false →
        makeThumbnail locals sharpAvailable sharpOutcome = (StepResult.ok, locals))
    ∧ (∀ e, makeThumbnail locals sharpAvailable (.error e) = (StepResult.ok, locals)) := by
  refine ⟨?_, ?_, ?_⟩
  · by_cases hf : truthy locals.file = true <;>
      by_cases ha : sharpAvailable = true <;>
        cases sharpOutcome <;> simp [makeThumbnail, hf, ha]
  · intro hf
    unfold makeThumbnail
    simp [hf]
  · intro e
    by_cases hf : truthy locals.file = true <;>
      by_cases ha : sharpAvailable = true <;> simp [makeThumbnail, hf, ha]

/-- Witness for C9 at a concrete run. -/
theorem c9_thumbnail_never_fails_witness :
    makeThumbnail { file := none } true (.ok ()) = (StepResult.ok, { file := none }) :=
  (c9_thumbnail_never_fails { file := none } true (.ok ())).2.1 rfl

/-- C2: a comment request whose `text` is absent or not a string, and an
image request whose `topic` is absent or not a string, each fail with a 400
validation error and make no outbound call to the provider. -/
theorem c2_missing_field_400_no_call
    (textF topicF : JsField) (apiKey apiUrl : Option String)
    (fetchOutcome : Except String ChatCompletion)
    (splashText style size model : String)
    (sdkOutcome proxyOutcome : Except String ImgResp)
    (hText : textF = JsField.absent ∨ isStr textF = false)
    (hTopic : topicF = JsField.absent ∨ isStr topicF = false) :
    commentPost textF apiUrl fetchOutcome = ⟨.fail 400 "No text provided", []⟩
    ∧ generateImage topicF splashText style size model apiKey apiUrl sdkOutcome proxyOutcome =
        ⟨.custom 400 "topic (string) is required in request body", {}, []⟩ := by
  constructor
  · rcases hText with h | h
    · subst h; rfl
    · unfold commentPost
      rw [if_pos (by simp [h])]
  · rcases hTopic with h | h
    · subst h; rfl
    · unfold generateImage
      rw [if_pos (by simp [h])]

/-- Witness for C2 at concrete invalid requests. -/
theorem c2_missing_field_400_no_call_witness :
    commentPost JsField.absent none (.error "e") = ⟨.fail 400 "No text provided", []⟩
    ∧ generateImage (JsField.nonString true) "" "" "1024x1024" "dall-e-2" none none
        (.error "e") (.error "e") =
      ⟨.custom 400 "topic (string) is required in request body", {}, []⟩ :=
  c2_missing_field_400_no_call JsField.absent (JsField.nonString true) none none
    (.error "e") "" "" "1024x1024" "dall-e-2" (.error "e") (.error "e")
    (Or.inl rfl) (Or.inr rfl)

/-- C5: when the provider completion carries zero choices, the comment
pipeline fails with a 500 "No completion choices returned" error after its
single upstream call, and no reply body is emitted. -/
theorem c5_zero_choices_500
    (text : String) (apiUrl : Option String) (completion : ChatCompletion)
    (hT : text ≠ "") (hU : truthy apiUrl = true)
    (hC : completion.choices.getD [] = []) :
    commentPost (.str text) apiUrl (.ok completion) =
      ⟨.fail 500 "No completion choices returned",
        [stripTrailingSlash (apiUrl.getD "") ++ "/v1/chat/completions"]⟩
    ∧ ∀ r raw, (commentPost (.str text) apiUrl (.ok completion)).out
        ≠ CommentOut.respond r raw := by
  have key : commentPost (.str text) apiUrl (.ok completion) =
      ⟨.fail 500 "No completion choices returned",
        [stripTrailingSlash (apiUrl.getD "") ++ "/v1/chat/completions"]⟩ := by
    cases hcc : completion.choices with
    | none => simp [commentPost, jsFalsy, isStr, hT, hU, hcc]
    | some l =>
      cases l with
      | nil => simp [commentPost, jsFalsy, isStr, hT, hU, hcc]
      | cons c cs => rw [hcc] at hC; simp at hC
  refine ⟨key, ?_⟩
  rw [key]
  intro r raw
  simp

/-- Witness for C5 at a concrete empty completion. -/
theorem c5_zero_choices_500_witness :
    commentPost (.str "hi") (some "http://api") (.ok ⟨some []⟩) =
      ⟨.fail 500 "No completion choices returned",
        [stripTrailingSlash ((some "http://api").getD "") ++ "/v1/chat/completions"]⟩
    ∧ ∀ r raw, (commentPost (.str "hi") (some "http://api") (.ok ⟨some []⟩)).out
        ≠ CommentOut.respond r raw :=
  c5_zero_choices_500 "hi" (some "http://api") ⟨some []⟩ (by decide) rfl rfl

/-- C6: with at least one choice, the comment pipeline responds with the
extracted reply and the full provider payload; the reply prefers the first
choice's structured message content, falls back to its raw `text` field
when that is a string, and defaults to the empty string. -/
theorem c6_reply_extraction
    (text : String) (apiUrl : Option String) (completion : ChatCompletion)
    (c : ChatChoice) (rest : List ChatChoice)
    (hT : text ≠ "") (hU : truthy apiUrl = true)
    (hC : completion.choices = some (c :: rest)) :
    ((commentPost (.str text) apiUrl (.ok completion)).out =
        CommentOut.respond (extractReply c) completion)
    ∧ (∀ s, c.message.bind (fun m => m.content) = some s → extractReply c = s)
    ∧ (c.message.bind (fun m => m.content) = none →
        ((∀ t, c.text = JsField.str t → extractReply c = t)
         ∧ (isStr c.text = false → extractReply c = ""))) := by
  refine ⟨?_, ?_, ?_⟩
  · simp [commentPost, jsFalsy, isStr, hT, hU, hC]
  · intro s hs
    simp [extractReply, hs]
  · intro hnone
    constructor
    · intro t ht
      simp [extractReply, hnone, ht]
    · intro hns
      unfold extractReply
      rw [hnone]
      cases hx : c.text with
      | absent => rfl
      | str s => rw [hx] at hns; simp [isStr] at hns
      | nonString b => rfl

/-- Witness for C6 at a concrete completion with one structured choice. -/
theorem c6_reply_extraction_witness :
    (commentPost (.str "hi") (some "http://api")
        (.ok ⟨some [⟨some ⟨some "yo"⟩, JsField.absent⟩]⟩)).out =
      CommentOut.respond (extractReply ⟨some ⟨some "yo"⟩, JsField.absent⟩)
        ⟨some [⟨some ⟨some "yo"⟩, JsField.absent⟩]⟩ :=
  (c6_reply_extraction "hi" (some "http://api")
    ⟨some [⟨some ⟨some "yo"⟩, JsField.absent⟩]⟩
    ⟨some ⟨some "yo"⟩, JsField.absent⟩ [] (by decide) rfl rfl).1

/-- C3: with a valid topic, exactly one generation strategy runs, selected
deterministically by configuration: a configured API key selects the single
SDK call; otherwise a configured base URL selects the single proxy POST to
`{baseURL}/v1/images/generations`; otherwise the request fails with a 500
"service not configured" error and no call is made. -/
theorem c3_strategy_selection
    (topic splashText style size model : String) (apiKey apiUrl : Option String)
    (sdkOutcome proxyOutcome : Except String ImgResp) (hT : topic ≠ "") :
    (truthy apiKey = true →
      (generateImage (.str topic) splashText style size model apiKey apiUrl
          sdkOutcome proxyOutcome).calls =
        [GenCall.sdkGen model (makePrompt topic splashText style) size])
    ∧ (truthy apiKey = false → truthy apiUrl = true →
      (generateImage (.str topic) splashText style size model apiKey apiUrl
          sdkOutcome proxyOutcome).calls =
        [GenCall.proxyPost (stripTrailingSlash (apiUrl.getD "") ++ "/v1/images/generations")])
    ∧ (truthy apiKey = false → truthy apiUrl = false →
      generateImage (.str topic) splashText style size model apiKey apiUrl
          sdkOutcome proxyOutcome =
        ⟨.custom 500 "No OPENAI_API_KEY or OPENAI_API_URL configured", {}, []⟩) := by
  refine ⟨?_, ?_, ?_⟩
  · intro hk
    rcases sdkOutcome with e | resp
    · simp [generateImage, jsFalsy, isStr, hT, hk, strOf]
    · rcases hd : resp.data with _ | (_ | ⟨item, restI⟩)
      · simp [generateImage, jsFalsy, isStr, hT, hk, hd, strOf]
      · simp [generateImage, jsFalsy, isStr, hT, hk, hd, strOf]
      · by_cases hu : truthy item.url = true <;>
          by_cases hb : truthy item.b64_json = true <;>
            simp [generateImage, jsFalsy, isStr, hT, hk, hd, hu, hb, strOf]
  · intro hk hu
    rcases proxyOutcome with e | resp
    · simp [generateImage, jsFalsy, isStr, hT, hk, hu, strOf]
    · rcases hd : resp.data with _ | (_ | ⟨item, restI⟩)
      · simp [generateImage, jsFalsy, isStr, hT, hk, hu, hd, strOf]
      · simp [generateImage, jsFalsy, isStr, hT, hk, hu, hd, strOf]
      · by_cases hiu : truthy item.url = true <;>
          by_cases hb : truthy item.b64_json = true <;>
            simp [generateImage, jsFalsy, isStr, hT, hk, hu, hd, hiu, hb, strOf]
  · intro hk hu
    simp [generateImage, jsFalsy, isStr, hT, hk, hu]

/-- Witness for C3 at a concrete configured request. -/
theorem c3_strategy_selection_witness :
    (generateImage (.str "space") "" "" "1024x1024" "dall-e-2" (some "k") none
        (.ok ⟨some [⟨some "u", none⟩]⟩) (.error "x")).calls =
      [GenCall.sdkGen "dall-e-2" (makePrompt "space" "" "") "1024x1024"] :=
  (c3_strategy_selection "space" "" "" "1024x1024" "dall-e-2" (some "k") none
    (.ok ⟨some [⟨some "u", none⟩]⟩) (.error "x") (by decide)).1 rfl

/-- C4: whichever strategy runs, generation succeeds exactly when the first
data item exists and carries a truthy URL or base64 payload; on success
exactly one of the locals url/b64 is set, never both; and an item carrying
neither yields a 500 upstream error. -/
theorem c4_generation_item_requirements
    (topic splashText style size model : String) (apiKey apiUrl : Option String)
    (resp : ImgResp) (otherOutcome : Except String ImgResp) (hT : topic ≠ "") :
    (truthy apiKey = true →
      ∀ g, g = generateImage (.str topic) splashText style size model apiKey apiUrl
          (.ok resp) otherOutcome →
        ((g.result = StepResult.ok
            ↔ ∃ item rest, resp.data = some (item :: rest)
                ∧ (truthy item.url = true ∨ truthy item.b64_json = true))
         ∧ (g.result = StepResult.ok →
             ((g.locals.url.isSome = true ∧ g.locals.b64 = none)
              ∨ (g.locals.b64.isSome = true ∧ g.locals.url = none)))
         ∧ (∀ item rest, resp.data = some (item :: rest) →
             truthy item.url = false → truthy item.b64_json = false →
             g.result = StepResult.custom 500 "Image not generated (no url or b64_json)")))
    ∧ (truthy apiKey = false → truthy apiUrl = true →
      ∀ g, g = generateImage (.str topic) splashText style size model apiKey apiUrl
          otherOutcome (.ok resp) →
        ((g.result = StepResult.ok
            ↔ ∃ item rest, resp.data = some (item :: rest)
                ∧ (truthy item.url = true ∨ truthy item.b64_json = true))
         ∧ (g.result = StepResult.ok →
             ((g.locals.url.isSome = true ∧ g.locals.b64 = none)
              ∨ (g.locals.b64.isSome = true ∧ g.locals.url = none)))
         ∧ (∀ item rest, resp.data = some (item :: rest) →
             truthy item.url = false → truthy item.b64_json = false →
             g.result = StepResult.custom 500
               "Image not generated (proxy returned no url or b64_json)"))) := by
  constructor
  · intro hk g hg
    subst hg
    rcases hd : resp.data with _ | (_ | ⟨item, restI⟩)
    · simp [generateImage, jsFalsy, isStr, hT, hk, hd, strOf]
    · simp [generateImage, jsFalsy, isStr, hT, hk, hd, strOf]
    · by_cases hu : truthy item.url = true <;>
        by_cases hb : truthy item.b64_json = true <;>
          simp [generateImage, jsFalsy, isStr, hT, hk, hd, hu, hb, strOf,
            isSome_of_truthy]
  · intro hk hu g hg
    subst hg
    rcases hd : resp.data with _ | (_ | ⟨item, restI⟩)
    · simp [generateImage, jsFalsy, isStr, hT, hk, hu, hd, strOf]
    · simp [generateImage, jsFalsy, isStr, hT, hk, hu, hd, strOf]
    · by_cases hiu : truthy item.url = true <;>
        by_cases hb : truthy item.b64_json = true <;>
          simp [generateImage, jsFalsy, isStr, hT, hk, hu, hd, hiu, hb, strOf,
            isSome_of_truthy]

/-- Witness for C4 at a concrete SDK response carrying a URL. -/
theorem c4_generation_item_requirements_witness :
    (generateImage (.str "space") "" "" "1024x1024" "dall-e-2" (some "k") none
        (.ok ⟨some [⟨some "u", none⟩]⟩) (.error "x")).result = StepResult.ok
      ↔ ∃ item rest, (⟨some [⟨some "u", none⟩]⟩ : ImgResp).data = some (item :: rest)
          ∧ (truthy item.url = true ∨ truthy item.b64_json = true) :=
  ((c4_generation_item_requirements "space" "" "" "1024x1024" "dall-e-2" (some "k")
    none ⟨some [⟨some "u", none⟩]⟩ (.error "x") (by decide)).1 rfl _ rfl).1

/-- C10: when the first item carries both a URL and a base64 payload, the
generation stage stores only the URL (the base64 value stays unset), the
request does not fail, and the persistence stage takes the download path. -/
theorem c10_url_precedence
    (topic splashText style size model : String) (apiKey apiUrl : Option String)
    (item : ImgItem) (restI : List ImgItem) (otherOutcome : Except String ImgResp)
    (timestamp : Nat) (dl : DlOutcome) (unlinkFails : Bool) (fs : FS)
    (hT : topic ≠ "") (hU : truthy item.url = true) (hB : truthy item.b64_json = true) :
    (truthy apiKey = true →
      ∀ g, g = generateImage (.str topic) splashText style size model apiKey apiUrl
          (.ok ⟨some (item :: restI)⟩) otherOutcome →
        (g.result = StepResult.ok ∧ g.locals.url = item.url ∧ g.locals.b64 = none
         ∧ (saveImage topic g.locals timestamp dl unlinkFails fs).effects =
             [SaveEffect.downloaded (item.url.getD "") (imageNameOf topic timestamp)]))
    ∧ (truthy apiKey = false → truthy apiUrl = true →
      ∀ g, g = generateImage (.str topic) splashText style size model apiKey apiUrl
          otherOutcome (.ok ⟨some (item :: restI)⟩) →
        (g.result = StepResult.ok ∧ g.locals.url = item.url ∧ g.locals.b64 = none
         ∧ (saveImage topic g.locals timestamp dl unlinkFails fs).effects =
             [SaveEffect.downloaded (item.url.getD "") (imageNameOf topic timestamp)])) := by
  constructor
  · intro hk g hg
    subst hg
    have hgen : generateImage (.str topic) splashText style size model apiKey apiUrl
        (.ok ⟨some (item :: restI)⟩) otherOutcome =
        ⟨StepResult.ok, { url := item.url },
          [GenCall.sdkGen model (makePrompt topic splashText style) size]⟩ := by
      simp [generateImage, jsFalsy, isStr, hT, hk, hU, strOf]
    rw [hgen]
    refine ⟨rfl, rfl, rfl, ?_⟩
    cases dl with
    | resp sc body =>
      simp only [saveImage, truthy_none, hU, Bool.not_true, Bool.false_eq_true, if_false]
      split <;> rfl
    | netErr =>
      simp only [saveImage, truthy_none, hU, Bool.not_true, Bool.false_eq_true, if_false]
  · intro hk hu g hg
    subst hg
    have hgen : generateImage (.str topic) splashText style size model apiKey apiUrl
        otherOutcome (.ok ⟨some (item :: restI)⟩) =
        ⟨StepResult.ok, { url := item.url },
          [GenCall.proxyPost (stripTrailingSlash (apiUrl.getD "") ++ "/v1/images/generations")]⟩ := by
      simp [generateImage, jsFalsy, isStr, hT, hk, hu, hU, strOf]
    rw [hgen]
    refine ⟨rfl, rfl, rfl, ?_⟩
    cases dl with
    | resp sc body =>
      simp only [saveImage, truthy_none, hU, Bool.not_true, Bool.false_eq_true, if_false]
      split <;> rfl
    | netErr =>
      simp only [saveImage, truthy_none, hU, Bool.not_true, Bool.false_eq_true, if_false]

/-- Witness for C10 at a concrete item carrying both payloads. -/
theorem c10_url_precedence_witness :
    (generateImage (.str "space") "" "" "1024x1024" "dall-e-2" (some "k") none
        (.ok ⟨some [⟨some "u", some "b"⟩]⟩) (.error "x")).result = StepResult.ok :=
  (((c10_url_precedence "space" "" "" "1024x1024" "dall-e-2" (some "k") none
    ⟨some "u", some "b"⟩ [] (.error "x") 0 (.resp (some 200) (.bytes [])) false []
    (by decide) rfl rfl).1 rfl _ rfl)).1

/-- C1, counterexample: a download rejected for HTTP status 404 fails the
request but leaves the partially written file in place, and a non-success
status below 400 (here 304) is not treated as a failure; so the claim that
any non-success status fails and any download error deletes the partial
file does not hold as stated. -/
theorem c1_download_cleanup_counterexample :
    ((saveImage "space" { url := some "http://img.example/a.png" } 0
        (.resp (some 404) (.bytes [7])) false []).result =
      StepResult.thrown "Failed to download image, status 404"
     ∧ fsGet (saveImage "space" { url := some "http://img.example/a.png" } 0
        (.resp (some 404) (.bytes [7])) false []).fs "uploads/space_0.png" =
        some FileContent.empty)
    ∧ (saveImage "space" { url := some "http://img.example/a.png" } 0
        (.resp (some 304) (.bytes [7])) false []).result = StepResult.ok := by
  refine ⟨⟨rfl, rfl⟩, rfl⟩

/-- C1, amended: a download status of 400 or above fails the request and
leaves the already-created file at the target path; a status below 400 (or
an absent status) succeeds and the file holds the downloaded body; only a
network error event triggers the best-effort deletion of the partially
written file, and when the deletion itself fails the failure is swallowed
(the file survives and the request still fails with the network error). -/
theorem c1_amended_download_failure_behavior
    (topic : String) (locals : Locals) (timestamp : Nat) (unlinkFails : Bool) (fs : FS)
    (hB : truthy locals.b64 = false) (hU : truthy locals.url = true) :
    (∀ c body, 400 ≤ c →
      (saveImage topic locals timestamp (.resp (some c) body) unlinkFails fs).result =
        StepResult.thrown ("Failed to download image, status " ++ toString c)
      ∧ fsGet (saveImage topic locals timestamp (.resp (some c) body) unlinkFails fs).fs
          (imagePathOf topic timestamp) = some FileContent.empty)
    ∧ (∀ sc body, (sc = none ∨ ∃ c, sc = some c ∧ c < 400) →
      (saveImage topic locals timestamp (.resp sc body) unlinkFails fs).result = StepResult.ok
      ∧ fsGet (saveImage topic locals timestamp (.resp sc body) unlinkFails fs).fs
          (imagePathOf topic timestamp) = some body)
    ∧ ((saveImage topic locals timestamp .netErr false fs).result =
          StepResult.thrown "download error"
       ∧ fsGet (saveImage topic locals timestamp .netErr false fs).fs
          (imagePathOf topic timestamp) = none)
    ∧ ((saveImage topic locals timestamp .netErr true fs).result =
          StepResult.thrown "download error"
       ∧ fsGet (saveImage topic locals timestamp .netErr true fs).fs
          (imagePathOf topic timestamp) = some FileContent.empty) := by
  refine ⟨?_, ?_, ?_, ?_⟩
  · intro c body hc
    have hsf : statusFailing (some c) = true := by
      simp only [statusFailing, Bool.and_eq_true, decide_eq_true_eq]
      omega
    constructor
    · simp [saveImage, hB, hU, hsf]
    · simp [saveImage, hB, hU, hsf, fsGet_fsSet]
  · intro sc body hsc
    have hsf : statusFailing sc = false := by
      rcases hsc with rfl | ⟨c, rfl, hlt⟩
      · rfl
      · simp only [statusFailing, Bool.and_eq_false_iff, decide_eq_false_iff_not]
        omega
    constructor
    · simp [saveImage, hB, hU, hsf]
    · simp [saveImage, hB, hU, hsf, fsGet_fsSet]
  · constructor
    · simp [saveImage, hB, hU]
    · simp [saveImage, hB, hU, fsGet_fsRemove]
  · constructor
    · simp [saveImage, hB, hU]
    · simp [saveImage, hB, hU, fsGet_fsSet]

/-- Witness for the amended C1 at a concrete 404 download. -/
theorem c1_amended_download_failure_behavior_witness :
    (saveImage "t" { url := some "http://u" } 0 (.resp (some 404) (.bytes [])) false []).result =
      StepResult.thrown ("Failed to download image, status " ++ toString 404)
    ∧ fsGet (saveImage "t" { url := some "http://u" } 0
        (.resp (some 404) (.bytes [])) false []).fs (imagePathOf "t" 0) =
      some FileContent.empty :=
  (c1_amended_download_failure_behavior "t" { url := some "http://u" } 0 false []
    rfl rfl).1 404 (.bytes []) (by omega)

end AIRepo
